import Mathlib

/-!
Verification of the core of the `webdriver` Go library: the protocol
transport (request construction, redirect handling, response-envelope
decoding, error classification) and the driver process supervisors
(chromedriver and firefox), shallowly embedded in Lean.

External effects (sockets, processes, the JSON codec, the filesystem)
are modelled as explicit oracle inputs; everything the Go code computes
itself (string rendering, control flow, state updates) is translated
directly from the source.
-/

set_option autoImplicit false

namespace Webdriver

/-! ### Decimal rendering, modelling Go's `strconv.Itoa` / `fmt %d` -/

/-- Little-endian decimal digits of `n`, with explicit fuel (the Go side
uses the runtime's decimal formatter; this is the standard algorithm). -/
def natDigitsRev (fuel : Nat) (n : Nat) : List Nat :=
  match fuel with
  | 0 => []
  | fuel + 1 => if n = 0 then [] else n % 10 :: natDigitsRev fuel (n / 10)

/-- Value of a little-endian decimal digit list. -/
def digitsVal : List Nat → Nat
  | [] => 0
  | d :: ds => d + 10 * digitsVal ds

/-- Decimal rendering of a natural number, as produced by `strconv.Itoa`. -/
def natRender (n : Nat) : String :=
  if n = 0 then "0" else ⟨((natDigitsRev n n).map Nat.digitChar).reverse⟩

/-- Decimal rendering of a Go `int`, as produced by `strconv.Itoa` and
`fmt.Sprintf("%d", ·)`. -/
def itoa : Int → String
  | Int.ofNat n => natRender n
  | Int.negSucc n => "-" ++ natRender (n + 1)

/-! ### Protocol status codes and `CommandError` (errors.go) -/

/-- One frame of the server-reported stack trace. -/
structure StackFrame where
  FileName : String
  ClassName : String
  MethodName : String
  LineNumber : Int
deriving DecidableEq, Repr

/-- The structured command error produced by the error classifier. -/
structure CommandError where
  StatusCode : Int
  ErrorType : String
  Message : String
  Screen : String
  Class : String
  StackTrace : List StackFrame
deriving DecidableEq, Repr

/-- The fixed table `statusCodeStrings` mapping protocol status codes to
their descriptions. -/
def statusCodeStrings (n : Int) : Option String :=
  match n with
  | 0 => some "The command executed successfully."
  | 6 => some "A session is either terminated or not started."
  | 7 => some "An element could not be located on the page using the given search parameters."
  | 8 => some "A request to switch to a frame could not be satisfied because the frame could not be found."
  | 9 => some "The requested resource could not be found, or a request was received using an HTTP method that is not supported by the mapped resource."
  | 10 => some "An element command failed because the referenced element is no longer attached to the DOM."
  | 11 => some "An element command could not be completed because the element is not visible on the page."
  | 12 => some "An element command could not be completed because the element is in an invalid state (e.g. attempting to click a disabled element)."
  | 13 => some "An unknown server-side error occurred while processing the command."
  | 15 => some "An attempt was made to select an element that cannot be selected."
  | 17 => some "An error occurred while executing user supplied JavaScript."
  | 19 => some "An error occurred while searching for an element by XPath."
  | 21 => some "An operation did not complete before its timeout expired."
  | 23 => some "A request to switch to a different window could not be satisfied because the window could not be found."
  | 24 => some "An illegal attempt was made to set a cookie under a different domain than the current page."
  | 25 => some "A request to set a cookie's value could not be satisfied."
  | 26 => some "A modal dialog was open, blocking this operation."
  | 27 => some "An attempt was made to operate on a modal dialog when one was not open."
  | 28 => some "A script did not complete before its timeout expired."
  | 29 => some "The coordinates provided to an interactions operation are invalid."
  | 30 => some "IME was not available."
  | 31 => some "An IME engine could not be started."
  | 32 => some "Argument was an invalid selector (e.g. XPath/CSS)."
  | 33 => some "A new session could not be created."
  | 34 => some "Target provided for a move action is out of bounds."
  | _ => none

/-- `CommandError.Error()`: renders the error as a message string. -/
def CommandError.Error (e : CommandError) : String :=
  let m := e.ErrorType
  let m := if m ≠ "" then m ++ ": " else m
  if e.StatusCode = -1 then
    m ++ "status code not specified"
  else
    match statusCodeStrings e.StatusCode with
    | some str => m ++ str ++ ": " ++ e.Message
    | none => m ++ "unknown status code (" ++ itoa e.StatusCode ++ "): " ++ e.Message

/-! ### The response envelope (`jsonResponse`) and `parseError` -/

/-- The field assignments `json.Unmarshal(jr.RawValue, commandError)`
performs.  The Go `CommandError` struct carries no json tags, so the
decoder matches JSON object keys to *any* exported field name
case-insensitively: a `value` payload can overwrite `StatusCode` and
`ErrorType` just as well as the diagnostic fields.  Each field is `none`
when the payload carries no matching key (the pre-populated value is
kept), `some v` when the decoder assigns `v`.  The JSON codec itself is
external; its outcome on `RawValue` is carried as an oracle. -/
structure ErrorDetail where
  StatusCode : Option Int
  ErrorType : Option String
  Message : Option String
  Screen : Option String
  Class : Option String
  StackTrace : Option (List StackFrame)
deriving DecidableEq, Repr

/-- The decode outcome with no field assigned (e.g. a bare string or
empty `value`). -/
def ErrorDetail.empty : ErrorDetail :=
  { StatusCode := none, ErrorType := none, Message := none, Screen := none, Class := none,
    StackTrace := none }

/-- The decoded response envelope `{sessionId, status, value}`.
`RawSessionId` and `RawValue` hold the raw, still-undecoded bytes of the
respective fields (`json.RawMessage`); `valueDecoded` is the set of
field assignments `json.Unmarshal(RawValue, commandError)` performs and
`valueDecodeFailed` whether that call returns an error (Go's decoder
keeps the fields it assigned before failing, so both are carried). -/
structure jsonResponse where
  RawSessionId : String
  Status : Int
  RawValue : String
  valueDecoded : ErrorDetail
  valueDecodeFailed : Bool
deriving DecidableEq, Repr

/-- The zero value of `jsonResponse`, which `doInternal` keeps using when
`json.Unmarshal` fails on a non-200 response (decoding its nil `value`
assigns nothing and fails). -/
def zeroJsonResponse : jsonResponse :=
  { RawSessionId := "", Status := 0, RawValue := "", valueDecoded := ErrorDetail.empty,
    valueDecodeFailed := true }

/-- The `switch c` at the top of `parseError`: the category string derived
from the HTTP status code. -/
def responseCodeError (c : Int) : String :=
  match c with
  | 200 => ""
  | 400 => "400: Missing Command Parameters"
  | 404 => "404: Unknown command/Resource Not Found"
  | 405 => "405: Invalid Command Method"
  | 500 => "500: Failed Command"
  | 501 => "501: Unimplemented Command"
  | _ => "Unknown error"

/-- `parseError(c, jr)`: the error classifier.  Given the HTTP status and
the decoded envelope it constructs a single `CommandError`.  When the
inner status is non-zero it pre-populates `StatusCode` and `ErrorType`,
lets `json.Unmarshal(jr.RawValue, commandError)` overwrite whichever
fields the `value` payload carries (the untagged struct matches keys
case-insensitively, so `statusCode`/`errorType` keys overwrite too), and
on a decode error sets `Message` to the raw `value` bytes, keeping any
fields the decoder assigned before failing. -/
def parseError (c : Int) (jr : jsonResponse) : CommandError :=
  let rce := responseCodeError c
  if jr.Status = 0 then
    { StatusCode := -1, ErrorType := rce, Message := "", Screen := "", Class := "",
      StackTrace := [] }
  else
    let ce : CommandError :=
      { StatusCode := jr.valueDecoded.StatusCode.getD jr.Status
        ErrorType := jr.valueDecoded.ErrorType.getD rce
        Message := jr.valueDecoded.Message.getD ""
        Screen := jr.valueDecoded.Screen.getD ""
        Class := jr.valueDecoded.Class.getD ""
        StackTrace := jr.valueDecoded.StackTrace.getD [] }
    if jr.valueDecodeFailed then { ce with Message := jr.RawValue } else ce

/-! ### JSON values and `json.Marshal`, as used for request bodies -/

mutual

/-- A JSON value, the model of the `interface{}` params handed to `do`. -/
inductive JVal where
  | jnull : JVal
  | jbool : Bool → JVal
  | jnum : Int → JVal
  | jstr : String → JVal
  | jobj : JFields → JVal

/-- The field list of a JSON object. -/
inductive JFields where
  | nil : JFields
  | cons : String → JVal → JFields → JFields

end

mutual

/-- `json.Marshal` on a `JVal`; in particular the empty object marshals
to the two-byte body `{}`. -/
def jMarshal : JVal → String
  | JVal.jnull => "null"
  | JVal.jbool true => "true"
  | JVal.jbool false => "false"
  | JVal.jnum n => itoa n
  | JVal.jstr s => "\"" ++ s ++ "\""
  | JVal.jobj fs => "\x7b" ++ jMarshalFields fs ++ "\x7d"

/-- Marshals an object's fields, comma-separated. -/
def jMarshalFields : JFields → String
  | JFields.nil => ""
  | JFields.cons k v JFields.nil => "\"" ++ k ++ "\":" ++ jMarshal v
  | JFields.cons k v (JFields.cons k2 v2 rest) =>
    "\"" ++ k ++ "\":" ++ jMarshal v ++ "," ++ jMarshalFields (JFields.cons k2 v2 rest)

end

/-! ### HTTP requests: `newRequest` and the body built by `doInternal` -/

/-- An outgoing HTTP request: method, URL, body bytes and headers. -/
structure HttpRequest where
  method : String
  url : String
  body : String
  headers : List (String × String)
deriving DecidableEq, Repr

/-- `newRequest(method, url, data)`: builds the request; only `POST`
requests get the JSON `Content-Type` header, every request gets the
`Accept` headers. -/
def newRequest (method url : String) (data : String) : HttpRequest :=
  { method := method, url := url, body := data,
    headers :=
      (if method = "POST" then [("Content-Type", "application/json;charset=utf-8")] else [])
        ++ [("Accept", "application/json"), ("Accept-charset", "utf-8")] }

/-- Whether a request carries a header with the given name. -/
def HttpRequest.hasHeader (r : HttpRequest) (name : String) : Bool :=
  r.headers.any (fun h => h.1 = name)

/-- The request `doInternal` constructs: `jsonParams` is only produced for
`POST` (a `nil` params becoming the empty JSON object), every other
method sends an empty body. -/
def buildRequest (params : Option JVal) (method url : String) : HttpRequest :=
  let jsonParams := if method = "POST" then jMarshal (params.getD (JVal.jobj JFields.nil)) else ""
  newRequest method url jsonParams

/-! ### HTTP responses and `doInternal`'s response handling -/

/-- An incoming HTTP response.  `location` is the parsed `Location`
header (`none` when absent, making `response.Location()` fail); `body`
is the outcome of `json.Unmarshal` of the body bytes into the envelope
(`none` when the body is not a JSON object). -/
structure HttpResponse where
  statusCode : Int
  location : Option String
  body : Option jsonResponse
deriving DecidableEq, Repr

/-- `isRedirect(response)`: true on HTTP 302 and 303. -/
def isRedirect (response : HttpResponse) : Bool :=
  response.statusCode = 302 || response.statusCode = 303

/-- The cutset of `bytes.Trim(jr.RawSessionId, "\x7b\x7d\"")`. -/
def isSessionIdCutset (c : Char) : Bool :=
  c = '\x7b' || c = '\x7d' || c = '"'

/-- `string(bytes.Trim(jr.RawSessionId, ...))`: strips braces and quotes
from both ends of the raw session id bytes. -/
def trimSessionId (s : String) : String :=
  ⟨((s.data.dropWhile isSessionIdCutset).reverse.dropWhile isSessionIdCutset).reverse⟩

/-- What one `doInternal` call returns: a transport-level error
(`errors.New`), a classified `*CommandError`, or the session id string
together with the raw `value` bytes. -/
inductive DoOutcome where
  | err : String → DoOutcome
  | cmdErr : CommandError → DoOutcome
  | ok : String → String → DoOutcome
deriving DecidableEq, Repr

/-- The tail of `doInternal` after the redirect check: decode the body,
report the protocol error on a non-JSON 200 body, route HTTP ≥ 400 or a
non-zero inner status to `parseError`, and otherwise return the trimmed
session id and the raw `value` bytes. -/
def handleResponse (response : HttpResponse) : DoOutcome :=
  if response.body.isNone ∧ response.statusCode = 200 then
    DoOutcome.err "error: response must be a JSON object"
  else
    let jr := response.body.getD zeroJsonResponse
    if response.statusCode ≥ 400 ∨ jr.Status ≠ 0 then
      DoOutcome.cmdErr (parseError response.statusCode jr)
    else
      DoOutcome.ok (trimSessionId jr.RawSessionId) jr.RawValue

/-- `doInternal(params, method, url)` against a server oracle mapping each
request to its response.  Returns the list of requests issued together
with the outcome.  On a redirected `POST` the Go code recursively calls
itself with `GET` on the `Location` URL; the `fuel` argument bounds that
recursion (the recursion depth is at most 1, because the redirect branch
requires the method to be `POST`). -/
def doInternal (server : HttpRequest → HttpResponse) :
    Nat → Option JVal → String → String → List HttpRequest × DoOutcome
  | 0, _, _, _ => ([], DoOutcome.err "redirect depth exceeded")
  | fuel + 1, params, method, url =>
    let request := buildRequest params method url
    let response := server request
    if method = "POST" ∧ isRedirect response = true then
      match response.location with
      | none => ([request], DoOutcome.err "missing Location header in response")
      | some loc =>
        let rest := doInternal server fuel none "GET" loc
        (request :: rest.1, rest.2)
    else
      ([request], handleResponse response)

/-- `do(params, method, urlFormat, ...)`: rejects any method other than
`GET`, `POST` and `DELETE`, then delegates to `doInternal` on the
stored base URL followed by the formatted path. -/
def WebDriverCore.do (server : HttpRequest → HttpResponse) (baseUrl : String)
    (params : Option JVal) (method path : String) : List HttpRequest × DoOutcome :=
  if method ≠ "GET" ∧ method ≠ "POST" ∧ method ≠ "DELETE" then
    ([], DoOutcome.err ("invalid method: " ++ method))
  else
    doInternal server 2 params method (baseUrl ++ path)

/-! ### Firefox preferences (`createTempProfile`'s `user.js` loop) -/

/-- A preference value as stored in the `map[string]interface{}`: the
three supported Go types, or any other dynamic type (tagged with its
name). -/
inductive PrefValue where
  | b : Bool → PrefValue
  | i : Int → PrefValue
  | s : String → PrefValue
  | other : String → PrefValue
deriving DecidableEq, Repr

/-- The value token written by the `switch x := i.(type)` in
`createTempProfile`: `true`/`false` for booleans, `strconv.Itoa` for
integers, the string wrapped in double quotes (unescaped) for strings;
`none` for any other type. -/
def renderPrefValue : PrefValue → Option String
  | PrefValue.b true => some "true"
  | PrefValue.b false => some "false"
  | PrefValue.i x => some (itoa x)
  | PrefValue.s x => some ("\"" ++ x ++ "\"")
  | PrefValue.other _ => none

/-- The full `user_pref` statement written for one map entry. -/
def userPrefStatement (k : String) (tok : String) : String :=
  "user_pref(\"" ++ k ++ "\", " ++ tok ++ ");"

/-- The `for k, i := range prefs` loop of `createTempProfile`: one
`user_pref("key", value);` line per entry (in iteration order), or the
error naming the offending key on the first unsupported value type. -/
def userPrefLines : List (String × PrefValue) → Except String (List String)
  | [] => Except.ok []
  | (k, v) :: rest =>
    match renderPrefValue v with
    | none => Except.error ("create profile failed: unexpected preference type: " ++ k)
    | some tok =>
      match userPrefLines rest with
      | Except.error e => Except.error e
      | Except.ok lines => Except.ok (userPrefStatement k tok :: lines)

/-! #### Reparsing the generated statements

The spec's round-trip property needs a parser for the statements the
profile writer emits.  The grammar below reads a statement left to
right: the literal `user_pref("`, the key up to the next double quote,
the literal `", `, a value token (`true`, `false`, a decimal integer, or
a double-quoted string of non-quote characters) and the trailing
`);`. -/

/-- Splits a character list at the first double quote: returns the
characters before it and the characters after it. -/
def splitAtQuote : List Char → Option (List Char × List Char)
  | [] => none
  | c :: cs =>
    if c = '"' then some ([], cs)
    else (splitAtQuote cs).map (fun p => (c :: p.1, p.2))

/-- Parses a non-empty all-digit character list as a decimal natural. -/
def parseNatChars (cs : List Char) : Option Nat :=
  if cs ≠ [] ∧ cs.all Char.isDigit then
    some (cs.foldl (fun acc c => 10 * acc + (c.toNat - 48)) 0)
  else none

/-- Parses a decimal integer token (optional leading minus sign). -/
def parseIntToken (str : String) : Option Int :=
  if str.data.head? = some '-' then (parseNatChars str.data.tail).map (fun n => -(n : Int))
  else (parseNatChars str.data).map (fun n => (n : Int))

/-- Parses a value token back into a `PrefValue`: a double-quoted string
literal (stopping at the first closing quote, with nothing allowed after
it), a decimal integer, or the boolean literals. -/
def parsePrefValueToken (str : String) : Option PrefValue :=
  if str.data.head? = some '"' then
    match splitAtQuote str.data.tail with
    | some (inner, []) => some (PrefValue.s ⟨inner⟩)
    | _ => none
  else
    match parseIntToken str with
    | some x => some (PrefValue.i x)
    | none =>
      if str = "true" then some (PrefValue.b true)
      else if str = "false" then some (PrefValue.b false)
      else none

/-- Strips an expected literal character sequence from the front of a
list, returning the remainder. -/
def stripLit : List Char → List Char → Option (List Char)
  | [], cs => some cs
  | _ :: _, [] => none
  | p :: ps, c :: cs => if c = p then stripLit ps cs else none

/-- Parses one `user_pref("key", value);` statement back into its
key/value pair: the literal `user_pref("`, the key up to the next double
quote, the literal `", `, a value token and the trailing `);`. -/
def parseUserPrefStatement (stmt : String) : Option (String × PrefValue) :=
  match stripLit ("user_pref(\"").data stmt.data with
  | none => none
  | some rest =>
    match splitAtQuote rest with
    | none => none
    | some keyRest =>
      match stripLit (", ").data keyRest.2 with
      | none => none
      | some rest2 =>
        match stripLit ((");").data.reverse) rest2.reverse with
        | none => none
        | some revTok => (parsePrefValueToken ⟨revTok.reverse⟩).map (fun v => (⟨keyRest.1⟩, v))

/-- Whether a preference value has one of the three supported Go types
(boolean, integer, string). -/
def isSupportedPref : PrefValue → Bool
  | PrefValue.other _ => false
  | _ => true

/-- The `user_pref` line written for one map entry (with a junk token for
unsupported values, which never reach the file). -/
def prefLine (p : String × PrefValue) : String :=
  userPrefStatement p.1 ((renderPrefValue p.2).getD "")

/-- An entry is quote-clean when its key — and its value, when the value
is a string — contains no double-quote character (the profile writer
emits strings unescaped). -/
def entryQuoteClean : String × PrefValue → Prop
  | (k, PrefValue.s x) => (∀ c ∈ k.data, ¬ c = '"') ∧ (∀ c ∈ x.data, ¬ c = '"')
  | (k, _) => ∀ c ∈ k.data, ¬ c = '"'

/-! ### The firefox driver supervisor (firefoxdriver.go)

Go methods mutate the receiver through a pointer and may return an error
with the mutations already applied, so `Start`/`Stop` are modelled as
state transformers returning the new driver state together with an
optional error string.  Every external effect (sockets, the filesystem,
the child process) is an oracle input. -/

/-- Sets a key in a preference map (`d.Prefs[k] = v`), modelled on the
association list in iteration order. -/
def setPref (prefs : List (String × PrefValue)) (k : String) (v : PrefValue) :
    List (String × PrefValue) :=
  if prefs.any (fun p => p.1 = k) then
    prefs.map (fun p => if p.1 = k then (k, v) else p)
  else prefs ++ [(k, v)]

/-- The outcome of a `Stop()` call: a returned error value, a runtime
panic (the nil-`Process` dereference in `d.cmd.Process.Signal`), or a
nil return. -/
inductive StopOutcome where
  | err : String → StopOutcome
  | panic : String → StopOutcome
  | ok : StopOutcome
deriving DecidableEq, Repr

/-- The mutable state of a `FirefoxDriver`.  `cmd` models the `*exec.Cmd`
field (the running marker): `none` when the field is nil, `some proc`
when it is set, with `proc` recording whether `cmd.Process` is non-nil
(`exec.Command` sets the field with a nil `Process`; only a successful
`cmd.Start()` fills `Process` in).  `logFile` models whether the log
file handle is non-nil. -/
structure FirefoxDriver where
  Port : Nat
  LogFile : String
  Prefs : List (String × PrefValue)
  DeleteProfileOnClose : Bool
  firefoxPath : String
  xpiPath : String
  profilePath : String
  url : String
  cmd : Option Bool
  logFile : Bool
deriving DecidableEq, Repr

/-- The outcomes of the external effects one `FirefoxDriver.Start` call
performs: the advisory-lock wait, the upward port scan (`free i` =
a test listener can be opened on port `i`), the close of the test
listener, profile creation, the binary launch, the log-file open, and
the readiness probe. -/
structure FFEnv where
  lockOk : Bool
  free : Nat → Bool
  closeOk : Bool
  closeErrMsg : String
  profileResult : Except String String
  launchOk : Bool
  launchErrMsg : String
  logOpenOk : Bool
  logOpenErrMsg : String
  probeOk : Bool

/-- The scan `for i := d.Port; i < 65535; i++` looking for the first
port on which a test listener can be opened, with explicit fuel
(`65535 - start` in `Start`). -/
def findFreePort (free : Nat → Bool) : Nat → Nat → Option Nat
  | 0, _ => none
  | fuel + 1, start => if free start then some start else findFreePort free fuel (start + 1)

/-- The port-allocation block at the top of `FirefoxDriver.Start`: when
the requested port is 0, set the base 7055, wait for the advisory lock
on port 7054 (timeout error if it cannot be acquired), then scan upward
for the first free port; a non-zero requested port is used as is. -/
def ffAllocPort (env : FFEnv) (d0 : FirefoxDriver) : FirefoxDriver × Option String :=
  if d0.Port = 0 then
    let d := { d0 with Port := 7055 }
    if env.lockOk = false then (d, some "timeout expired trying to lock mutex port")
    else
      match findFreePort env.free (65535 - d.Port) d.Port with
      | some p =>
        if env.closeOk = false then (d, some env.closeErrMsg)
        else ({ d with Port := p }, none)
      | none => (d, none)
  else (d0, none)

/-- `FirefoxDriver.Start()`.  Note: the Go code assigns `d.cmd`
(`exec.Command(...)`, `Process` still nil) before launching the binary
and performs no already-running check; pipe-creation errors are only
printed, never returned; a successful `cmd.Start()` fills `Process`
in. -/
def FirefoxDriver.Start (env : FFEnv) (d0 : FirefoxDriver) : FirefoxDriver × Option String :=
  match ffAllocPort env d0 with
  | (d, some e) => (d, some e)
  | (d1, none) =>
    let d2 := { d1 with Prefs := setPref d1.Prefs "webdriver_firefox_port" (PrefValue.i d1.Port) }
    match env.profileResult with
    | Except.error e => (d2, some e)
    | Except.ok pp =>
      let d3 := { d2 with profilePath := pp, cmd := some false }
      if env.launchOk = false then (d3, some ("unable to start firefox: " ++ env.launchErrMsg))
      else
        let d4 := { d3 with cmd := some true }
        if d4.LogFile ≠ "" ∧ env.logOpenOk = false then (d4, some env.logOpenErrMsg)
        else
          let d5 := if d4.LogFile ≠ "" then { d4 with logFile := true } else d4
          if env.probeOk = false then (d5, some "start failed: timeout expired")
          else ({ d5 with url := "http://127.0.0.1:" ++ natRender d5.Port ++ "/hub" }, none)

/-- `FirefoxDriver.Stop()`: a state error when `d.cmd` is nil.  Otherwise
`d.cmd.Process.Signal(os.Interrupt)` runs: when `Process` is nil (the
launch failed) this dereferences a nil pointer and panics; when it is
set, best-effort signal/cleanup and a nil return.  The deferred
`d.cmd = nil` runs in both cases. -/
def FirefoxDriver.Stop (d : FirefoxDriver) : FirefoxDriver × StopOutcome :=
  if d.cmd = none then (d, StopOutcome.err "stop failed: firefoxdriver not running")
  else if d.cmd = some false then
    ({ d with cmd := none },
      StopOutcome.panic "runtime error: invalid memory address or nil pointer dereference")
  else ({ d with cmd := none }, StopOutcome.ok)

/-- `GetDefaultPrefs()`: the default firefox preference map. -/
def GetDefaultPrefs : List (String × PrefValue) :=
  [("browser.cache.disk.enable", PrefValue.b false),
   ("browser.cache.disk.capacity", PrefValue.i 0),
   ("browser.cache.memory.enable", PrefValue.b true),
   ("extensions.autoDisableScopes", PrefValue.i 10),
   ("signon.rememberSignons", PrefValue.b false),
   ("browser.EULA.3.accepted", PrefValue.b true),
   ("browser.EULA.override", PrefValue.b true),
   ("browser.startup.homepage", PrefValue.s "about:blank"),
   ("browser.startup.page", PrefValue.i 0),
   ("browser.startup.homepage_override.mstone", PrefValue.s "ignore"),
   ("browser.offline", PrefValue.b false),
   ("browser.shell.checkDefaultBrowser", PrefValue.b false),
   ("dom.disable_open_during_load", PrefValue.b false),
   ("network.http.phishy-userpass-length", PrefValue.i 255),
   ("security.warn_entering_secure", PrefValue.b false),
   ("security.warn_entering_secure.show_once", PrefValue.b false),
   ("security.warn_entering_weak", PrefValue.b false),
   ("security.warn_entering_weak.show_once", PrefValue.b false),
   ("security.warn_leaving_secure", PrefValue.b false),
   ("security.warn_leaving_secure.show_once", PrefValue.b false),
   ("security.warn_submit_insecure", PrefValue.b false),
   ("security.warn_submit_insecure.show_once", PrefValue.b false),
   ("security.warn_viewing_mixed", PrefValue.b false),
   ("security.warn_viewing_mixed.show_once", PrefValue.b false),
   ("toolkit.networkmanager.disable", PrefValue.b true),
   ("app.update.auto", PrefValue.b false),
   ("app.update.enabled", PrefValue.b false),
   ("extensions.update.enabled", PrefValue.b false),
   ("browser.search.update", PrefValue.b false),
   ("extensions.blocklist.enabled", PrefValue.b false),
   ("browser.safebrowsing.enabled", PrefValue.b false),
   ("browser.safebrowsing.malware.enabled", PrefValue.b false),
   ("browser.download.manager.showWhenStarting", PrefValue.b false),
   ("browser.sessionstore.resume_from_crash", PrefValue.b false),
   ("browser.tabs.warnOnClose", PrefValue.b false),
   ("browser.tabs.warnOnOpen", PrefValue.b false),
   ("devtools.errorconsole.enabled", PrefValue.b true),
   ("extensions.logging.enabled", PrefValue.b true),
   ("extensions.update.notifyUser", PrefValue.b false),
   ("network.manage-offline-status", PrefValue.b false),
   ("offline-apps.allow_by_default", PrefValue.b true),
   ("prompts.tab_modal.enabled", PrefValue.b false),
   ("security.fileuri.origin_policy", PrefValue.i 3),
   ("security.fileuri.strict_origin_policy", PrefValue.b false),
   ("toolkit.telemetry.prompted", PrefValue.i 2),
   ("toolkit.telemetry.enabled", PrefValue.b false),
   ("toolkit.telemetry.rejected", PrefValue.b true),
   ("browser.dom.window.dump.enabled", PrefValue.b true),
   ("dom.report_all_js_exceptions", PrefValue.b true),
   ("javascript.options.showInConsole", PrefValue.b true),
   ("network.http.max-connections-per-server", PrefValue.i 10),
   ("webdriver_accept_untrusted_certs", PrefValue.b true),
   ("webdriver_assume_untrusted_issuer", PrefValue.b true),
   ("webdriver_enable_native_events", PrefValue.b false),
   ("webdriver_unexpected_alert_behaviour", PrefValue.s "dismiss")]

/-- `NewFirefoxDriver(firefoxPath, xpiPath)`: port 0 (auto-select),
default preferences, delete the profile on close. -/
def NewFirefoxDriver (firefoxPath xpiPath : String) : FirefoxDriver :=
  { Port := 0, LogFile := "", Prefs := GetDefaultPrefs, DeleteProfileOnClose := true,
    firefoxPath := firefoxPath, xpiPath := xpiPath, profilePath := "", url := "",
    cmd := none, logFile := false }

/-! ### The chromedriver supervisor (both source variants) -/

/-- The mutable state of a `ChromeDriver`.  `cmd` models the `*exec.Cmd`
field as for `FirefoxDriver`: `none` = nil, `some proc` = set with
`proc` recording whether `cmd.Process` is non-nil. -/
structure ChromeDriver where
  Port : Nat
  BaseUrl : String
  Threads : Nat
  LogPath : String
  LogFile : String
  path : String
  url : String
  cmd : Option Bool
  logFile : Bool
deriving DecidableEq, Repr

/-- The outcomes of the external effects one `ChromeDriver.Start` call
performs. -/
structure ChromeEnv where
  logPathWritable : Bool
  logPathErrMsg : String
  stdoutPipeOk : Bool
  stderrPipeOk : Bool
  pipeErrMsg : String
  launchOk : Bool
  launchErrMsg : String
  logOpenOk : Bool
  logOpenErrMsg : String
  probeOk : Bool

/-- `NewChromeDriver(path)` of the non-freeport variant: port 9515,
log path `chromedriver.log`. -/
def NewChromeDriver (path : String) : ChromeDriver :=
  { Port := 9515, BaseUrl := "", Threads := 4, LogPath := "chromedriver.log", LogFile := "",
    path := path, url := "", cmd := none, logFile := false }

/-- The switches vector built by `ChromeDriver.Start`. -/
def chromeSwitches (d : ChromeDriver) : List String :=
  ["-port=" ++ natRender d.Port, "-log-path=" ++ d.LogPath,
   "-http-threads=" ++ natRender d.Threads]
    ++ (if d.BaseUrl ≠ "" then ["-url-base=" ++ d.BaseUrl] else [])

/-- `ChromeDriver.Start()` of the variant that creates the pipes and
launches inline.  Note: `d.cmd` is assigned (`exec.Command(...)`,
`Process` nil) before the pipes are created and the binary is launched,
so it remains set — with a nil `Process` — when any of those steps
fails; a successful `cmd.Start()` fills `Process` in. -/
def ChromeDriver.StartInline (env : ChromeEnv) (d0 : ChromeDriver) :
    ChromeDriver × Option String :=
  if d0.cmd.isSome then (d0, some "chromedriver start failed: chromedriver already running")
  else if d0.LogPath ≠ "" ∧ env.logPathWritable = false then
    (d0, some ("chromedriver start failed: unable to write in log path: " ++ env.logPathErrMsg))
  else
    let d1 := { d0 with url := "http://127.0.0.1:" ++ natRender d0.Port ++ d0.BaseUrl }
    let d2 := { d1 with cmd := some false }
    if env.stdoutPipeOk = false then (d2, some ("chromedriver start failed: " ++ env.pipeErrMsg))
    else if env.stderrPipeOk = false then
      (d2, some ("chromedriver start failed: " ++ env.pipeErrMsg))
    else if env.launchOk = false then
      (d2, some ("chromedriver start failed: " ++ env.launchErrMsg))
    else
      let d3 := { d2 with cmd := some true }
      if d3.LogFile ≠ "" ∧ env.logOpenOk = false then (d3, some env.logOpenErrMsg)
      else
        let d4 := if d3.LogFile ≠ "" then { d3 with logFile := true } else d3
        if env.probeOk = false then (d4, some "start failed: timeout expired")
        else (d4, none)

/-- `runBrowser(exePath, switches, env, logFilePath)`: creates the pipes,
launches the binary and opens the log file; on any failure it returns
nil handles together with the error.  The returned pair models the
`cmd` field (as in the drivers: a successful launch means
`some true`) and whether `logFile` is non-nil. -/
def runBrowser (env : ChromeEnv) (logFilePath : String) :
    Except String (Option Bool × Bool) :=
  if env.stdoutPipeOk = false then Except.error env.pipeErrMsg
  else if env.stderrPipeOk = false then Except.error env.pipeErrMsg
  else if env.launchOk = false then Except.error env.launchErrMsg
  else if logFilePath ≠ "" then
    if env.logOpenOk = false then Except.error env.logOpenErrMsg
    else Except.ok (some true, true)
  else Except.ok (some true, false)

/-- `ChromeDriver.Start()` of the variant that delegates to
`runBrowser`: `d.cmd, d.logFile, err = runBrowser(...)` assigns nil
handles when the launch fails, so the running marker is only set after
the binary launch succeeds. -/
def ChromeDriver.StartRunBrowser (env : ChromeEnv) (d0 : ChromeDriver) :
    ChromeDriver × Option String :=
  if d0.cmd.isSome then (d0, some "chromedriver start failed: chromedriver already running")
  else if d0.LogPath ≠ "" ∧ env.logPathWritable = false then
    (d0, some ("chromedriver start failed: unable to write in log path: " ++ env.logPathErrMsg))
  else
    let d1 := { d0 with url := "http://127.0.0.1:" ++ natRender d0.Port ++ d0.BaseUrl }
    match runBrowser env d1.LogFile with
    | Except.error e =>
      ({ d1 with cmd := none, logFile := false }, some ("chromedriver start failed: " ++ e))
    | Except.ok handles =>
      let d2 := { d1 with cmd := handles.1, logFile := handles.2 }
      if env.probeOk = false then (d2, some "start failed: timeout expired")
      else (d2, none)

/-- `ChromeDriver.Stop()`: a state error when `d.cmd` is nil.  Otherwise
`d.cmd.Process.Signal(os.Interrupt)` runs: when `Process` is nil (the
launch failed) this dereferences a nil pointer and panics; when it is
set, best-effort signal/cleanup and a nil return.  The deferred
`d.cmd = nil` runs in both cases. -/
def ChromeDriver.Stop (d : ChromeDriver) : ChromeDriver × StopOutcome :=
  if d.cmd = none then (d, StopOutcome.err "stop failed: chromedriver not running")
  else if d.cmd = some false then
    ({ d with cmd := none },
      StopOutcome.panic "runtime error: invalid memory address or nil pointer dereference")
  else ({ d with cmd := none }, StopOutcome.ok)

/-! ### Concrete oracle environments used by the witnesses -/

/-- A server oracle for the C2 witness: a 303 redirect on POST, a normal
envelope on the follow-up GET. -/
def c2Server : HttpRequest → HttpResponse := fun req =>
  if req.method = "POST" then
    { statusCode := 303, location := some "http://127.0.0.1:7055/hub/session/abc", body := none }
  else
    { statusCode := 200, location := none,
      body := some
        { RawSessionId := "\"abc\"", Status := 0, RawValue := "\x7b\x7d", valueDecoded := ErrorDetail.empty, valueDecodeFailed := true } }

/-- A locked, all-success allocation environment whose first two
candidate ports are occupied. -/
def ffScanEnv : FFEnv :=
  { lockOk := true
    free := fun n => decide (7057 ≤ n)
    closeOk := true
    closeErrMsg := "close error"
    profileResult := Except.ok "/tmp/webdriver123"
    launchOk := true
    launchErrMsg := "exec error"
    logOpenOk := true
    logOpenErrMsg := "open error"
    probeOk := true }

/-- An environment for the chromedriver supervisor in which every
external effect succeeds. -/
def chromeOkEnv : ChromeEnv :=
  { logPathWritable := true
    logPathErrMsg := "permission denied"
    stdoutPipeOk := true
    stderrPipeOk := true
    pipeErrMsg := "pipe error"
    launchOk := true
    launchErrMsg := "exec error"
    logOpenOk := true
    logOpenErrMsg := "open error"
    probeOk := true }

/-- An environment for the firefox supervisor in which every external
effect succeeds. -/
def ffOkEnv : FFEnv :=
  { lockOk := true
    free := fun _ => true
    closeOk := true
    closeErrMsg := "close error"
    profileResult := Except.ok "/tmp/webdriver123"
    launchOk := true
    launchErrMsg := "exec error"
    logOpenOk := true
    logOpenErrMsg := "open error"
    probeOk := true }

/-! ### Helper lemmas: decimal rendering round-trips through parsing -/

theorem digitsVal_natDigitsRev : ∀ fuel n : Nat, n ≤ fuel → digitsVal (natDigitsRev fuel n) = n := by
  intro fuel
  induction fuel with
  | zero =>
    intro n h
    have hn : n = 0 := Nat.le_zero.mp h
    simp [natDigitsRev, digitsVal, hn]
  | succ f ih =>
    intro n h
    by_cases hn : n = 0
    · simp [natDigitsRev, digitsVal, hn]
    · have hdiv : n / 10 < n := Nat.div_lt_self (Nat.pos_of_ne_zero hn) (by decide)
      have hle : n / 10 ≤ f := by omega
      simp only [natDigitsRev, if_neg hn, digitsVal]
      rw [ih (n / 10) hle]
      omega

theorem natDigitsRev_lt : ∀ fuel n : Nat, ∀ d ∈ natDigitsRev fuel n, d < 10 := by
  intro fuel
  induction fuel with
  | zero => intro n d hd; simp [natDigitsRev] at hd
  | succ f ih =>
    intro n d hd
    by_cases hn : n = 0
    · simp [natDigitsRev, hn] at hd
    · simp only [natDigitsRev, if_neg hn, List.mem_cons] at hd
      rcases hd with hd | hd
      · omega
      · exact ih (n / 10) d hd

theorem natDigitsRev_ne_nil (n : Nat) (h : n ≠ 0) : natDigitsRev n n ≠ [] := by
  match n with
  | 0 => exact absurd rfl h
  | m + 1 => simp [natDigitsRev]

theorem digitChar_isDigit (d : Nat) (h : d < 10) : (Nat.digitChar d).isDigit = true := by
  interval_cases d <;> decide

theorem digitChar_toNat (d : Nat) (h : d < 10) : (Nat.digitChar d).toNat - 48 = d := by
  interval_cases d <;> decide

theorem foldl_digitChars (vs : List Nat) (h : ∀ d ∈ vs, d < 10) :
    ((vs.map Nat.digitChar).reverse).foldl (fun acc c => 10 * acc + (c.toNat - 48)) 0
      = digitsVal vs := by
  induction vs with
  | nil => simp [digitsVal]
  | cons d ds ih =>
    have hd : d < 10 := h d (List.mem_cons_self d ds)
    have hds : ∀ x ∈ ds, x < 10 := fun x hx => h x (List.mem_cons_of_mem d hx)
    simp only [List.map_cons, List.reverse_cons, List.foldl_append, List.foldl_cons,
      List.foldl_nil, ih hds, digitsVal]
    rw [digitChar_toNat d hd]
    omega

theorem natRender_data (n : Nat) (h : n ≠ 0) :
    (natRender n).data = ((natDigitsRev n n).map Nat.digitChar).reverse := by
  simp [natRender, h]

theorem natRender_all_isDigit (n : Nat) : (natRender n).data.all Char.isDigit = true := by
  by_cases h : n = 0
  · simp [natRender, h]
  · rw [natRender_data n h]
    rw [List.all_eq_true]
    intro c hc
    rw [List.mem_reverse, List.mem_map] at hc
    obtain ⟨d, hd, rfl⟩ := hc
    exact digitChar_isDigit d (natDigitsRev_lt n n d hd)

theorem natRender_ne_nil (n : Nat) : (natRender n).data ≠ [] := by
  by_cases h : n = 0
  · simp [natRender, h]
  · rw [natRender_data n h]
    simp only [ne_eq, List.reverse_eq_nil_iff, List.map_eq_nil_iff]
    exact natDigitsRev_ne_nil n h

theorem parseNatChars_natRender (n : Nat) : parseNatChars (natRender n).data = some n := by
  by_cases h : n = 0
  · rw [h]; decide
  · rw [natRender_data n h]
    have hne : ((natDigitsRev n n).map Nat.digitChar).reverse ≠ [] := by
      rw [← natRender_data n h]; exact natRender_ne_nil n
    have hall : (((natDigitsRev n n).map Nat.digitChar).reverse).all Char.isDigit = true := by
      rw [← natRender_data n h]; exact natRender_all_isDigit n
    rw [parseNatChars, if_pos ⟨hne, hall⟩]
    rw [foldl_digitChars (natDigitsRev n n) (natDigitsRev_lt n n)]
    rw [digitsVal_natDigitsRev n n (Nat.le_refl n)]

theorem natRender_head_isDigit (n : Nat) :
    ∃ c cs, (natRender n).data = c :: cs ∧ c.isDigit = true := by
  rcases hd : (natRender n).data with _ | ⟨c, cs⟩
  · exact absurd hd (natRender_ne_nil n)
  · refine ⟨c, cs, rfl, ?_⟩
    have hall := natRender_all_isDigit n
    rw [hd] at hall
    simp only [List.all_cons, Bool.and_eq_true] at hall
    exact hall.1

theorem parseIntToken_itoa (x : Int) : parseIntToken (itoa x) = some x := by
  match x with
  | Int.ofNat n =>
    obtain ⟨c, cs, hd, hdig⟩ := natRender_head_isDigit n
    have hcm : ¬ c = '-' := by
      intro hc; rw [hc] at hdig; exact absurd hdig (by decide)
    rw [show itoa (Int.ofNat n) = natRender n from rfl]
    rw [parseIntToken, hd]
    simp only [List.head?_cons, List.tail_cons]
    rw [if_neg (by simp [hcm]), ← hd, parseNatChars_natRender]
    rfl
  | Int.negSucc n =>
    have hd : (itoa (Int.negSucc n)).data = '-' :: (natRender (n + 1)).data := by
      rw [show itoa (Int.negSucc n) = "-" ++ natRender (n + 1) from rfl]
      rw [String.data_append]
      rfl
    rw [parseIntToken, hd]
    simp only [List.head?_cons, List.tail_cons]
    rw [if_pos trivial, parseNatChars_natRender]
    simp [Int.negSucc_eq]

theorem parsePrefValueToken_itoa (x : Int) : parsePrefValueToken (itoa x) = some (PrefValue.i x) := by
  have hq : ∃ c cs, (itoa x).data = c :: cs ∧ ¬ c = '"' := by
    match x with
    | Int.ofNat n =>
      obtain ⟨c, cs, hd, hdig⟩ := natRender_head_isDigit n
      refine ⟨c, cs, hd, ?_⟩
      intro hc; rw [hc] at hdig; exact absurd hdig (by decide)
    | Int.negSucc n =>
      refine ⟨'-', (natRender (n + 1)).data, ?_, by decide⟩
      rw [show itoa (Int.negSucc n) = "-" ++ natRender (n + 1) from rfl, String.data_append]
      rfl
  obtain ⟨c, cs, hd, hcq⟩ := hq
  rw [parsePrefValueToken, hd]
  simp only [List.head?_cons]
  rw [if_neg (by simp [hcq]), parseIntToken_itoa]

/-! ### Helper lemmas: reparsing the generated `user_pref` statements -/

theorem splitAtQuote_append (cs rest : List Char) (h : ∀ c ∈ cs, ¬ c = '"') :
    splitAtQuote (cs ++ '"' :: rest) = some (cs, rest) := by
  induction cs with
  | nil => simp [splitAtQuote]
  | cons c cs ih =>
    have hc : ¬ c = '"' := h c (List.mem_cons_self c cs)
    have hcs : ∀ x ∈ cs, ¬ x = '"' := fun x hx => h x (List.mem_cons_of_mem c hx)
    simp [List.cons_append, splitAtQuote, if_neg hc, ih hcs]

theorem stripLit_append (ps cs : List Char) : stripLit ps (ps ++ cs) = some cs := by
  induction ps with
  | nil => rfl
  | cons p ps ih => simp [stripLit, ih]

theorem parsePrefValueToken_quoted (x : String) (hx : ∀ c ∈ x.data, ¬ c = '"') :
    parsePrefValueToken ("\"" ++ x ++ "\"") = some (PrefValue.s x) := by
  have hd : ("\"" ++ x ++ "\"").data = '"' :: (x.data ++ '"' :: []) := by
    simp [String.data_append]
  rw [parsePrefValueToken, hd]
  simp only [List.head?_cons, List.tail_cons, eq_self_iff_true, if_true]
  rw [splitAtQuote_append x.data [] hx]

theorem parseUserPrefStatement_roundTrip (k tok : String) (v : PrefValue)
    (hk : ∀ c ∈ k.data, ¬ c = '"') (htok : parsePrefValueToken tok = some v) :
    parseUserPrefStatement (userPrefStatement k tok) = some (k, v) := by
  have hd : (userPrefStatement k tok).data
      = ("user_pref(\"").data ++ (k.data ++ '"' :: ((", ").data ++ (tok.data ++ (");").data))) := by
    simp [userPrefStatement, String.data_append]
  rw [parseUserPrefStatement, hd, stripLit_append]
  dsimp only
  rw [splitAtQuote_append k.data _ hk]
  dsimp only
  rw [stripLit_append (", ").data (tok.data ++ (");").data)]
  dsimp only
  rw [show (tok.data ++ (");").data).reverse
      = ((");").data.reverse) ++ tok.data.reverse by simp]
  rw [stripLit_append ((");").data.reverse) tok.data.reverse]
  dsimp only
  simp only [List.reverse_reverse]
  rw [show (⟨tok.data⟩ : String) = tok from rfl, htok]
  rfl

/-! ### Claims about the error classifier and renderer -/

/-- **C6 counterexample.** The Go `CommandError` struct carries no json
tags, so `json.Unmarshal(jr.RawValue, commandError)` matches payload
keys case-insensitively against *all* exported fields: a `value` object
carrying `statusCode`/`errorType` keys overwrites the pre-populated
inner status and table category.  With HTTP 500, inner status 7 and
value `\x7b"statusCode": 99, "errorType": "boom"\x7d`, the classified
error carries code 99 — not the inner status 7 — and category "boom" —
not a function of the HTTP status alone. -/
theorem claim6_counterexample :
    (parseError 500
        { RawSessionId := "", Status := 7,
          RawValue := "\x7b\"statusCode\": 99, \"errorType\": \"boom\"\x7d",
          valueDecoded :=
            { StatusCode := some 99, ErrorType := some "boom", Message := none,
              Screen := none, Class := none, StackTrace := none },
          valueDecodeFailed := false }).StatusCode = 99
    ∧ (parseError 500
        { RawSessionId := "", Status := 7,
          RawValue := "\x7b\"statusCode\": 99, \"errorType\": \"boom\"\x7d",
          valueDecoded :=
            { StatusCode := some 99, ErrorType := some "boom", Message := none,
              Screen := none, Class := none, StackTrace := none },
          valueDecodeFailed := false }).ErrorType = "boom"
    ∧ (99 : Int) ≠ 7
    ∧ "boom" ≠ responseCodeError 500 := by
  decide

/-- **C6 (amended).** For every HTTP status `c` and decoded envelope
`jr`, the classifier constructs a single error.  When the inner status
is 0 it is exactly the table category for `c` with code −1 and no
decode.  When the inner status is non-zero, the classifier pre-populates
the table category (400, 404, 405, 500, 501 map to their fixed
descriptions, any other status except 200 to the unknown-error
description) and the inner status, then decodes the envelope's `value`
into the untagged error struct: the final code and category equal the
inner status and the table entry for `c` exactly when the payload
carries no `statusCode`/`errorType` key, and are overwritten by the
payload's values otherwise. -/
theorem claim6_error_classifier (c : Int) (jr : jsonResponse) :
    (jr.Status = 0 →
      parseError c jr
        = { StatusCode := -1, ErrorType := responseCodeError c, Message := "", Screen := "",
            Class := "", StackTrace := [] })
    ∧ (jr.Status ≠ 0 →
        (parseError c jr).StatusCode = jr.valueDecoded.StatusCode.getD jr.Status
        ∧ (parseError c jr).ErrorType = jr.valueDecoded.ErrorType.getD (responseCodeError c))
    ∧ (jr.Status ≠ 0 → jr.valueDecoded.StatusCode = none →
        (parseError c jr).StatusCode = jr.Status)
    ∧ (jr.Status ≠ 0 → jr.valueDecoded.ErrorType = none →
        (parseError c jr).ErrorType = responseCodeError c)
    ∧ responseCodeError 400 = "400: Missing Command Parameters"
    ∧ responseCodeError 404 = "404: Unknown command/Resource Not Found"
    ∧ responseCodeError 405 = "405: Invalid Command Method"
    ∧ responseCodeError 500 = "500: Failed Command"
    ∧ responseCodeError 501 = "501: Unimplemented Command"
    ∧ (c ≠ 200 → c ≠ 400 → c ≠ 404 → c ≠ 405 → c ≠ 500 → c ≠ 501 →
        responseCodeError c = "Unknown error") := by
  refine ⟨?_, ?_, ?_, ?_, rfl, rfl, rfl, rfl, rfl, ?_⟩
  · intro h
    rw [parseError, if_pos h]
  · intro h
    rw [parseError, if_neg h]
    by_cases hf : jr.valueDecodeFailed <;> simp [hf]
  · intro h hnone
    rw [parseError, if_neg h]
    by_cases hf : jr.valueDecodeFailed <;> simp [hf, hnone]
  · intro h hnone
    rw [parseError, if_neg h]
    by_cases hf : jr.valueDecodeFailed <;> simp [hf, hnone]
  · intro h200 h400 h404 h405 h500 h501
    unfold responseCodeError
    split <;> simp_all

/-- Witness for C6: an unlisted HTTP status (418), inner status 7 and a
bare-string value payload that decodes no override fields. -/
theorem claim6_witness :
    responseCodeError 418 = "Unknown error"
    ∧ (parseError 418
        { RawSessionId := "", Status := 7, RawValue := "nf",
          valueDecoded := ErrorDetail.empty, valueDecodeFailed := true }).StatusCode = 7
    ∧ (parseError 418
        { RawSessionId := "", Status := 7, RawValue := "nf",
          valueDecoded := ErrorDetail.empty, valueDecodeFailed := true }).ErrorType
      = "Unknown error" := by
  have h := claim6_error_classifier 418
    { RawSessionId := "", Status := 7, RawValue := "nf",
      valueDecoded := ErrorDetail.empty, valueDecodeFailed := true }
  refine ⟨?_, ?_, ?_⟩
  · exact h.2.2.2.2.2.2.2.2.2 (by decide) (by decide) (by decide) (by decide) (by decide)
      (by decide)
  · exact h.2.2.1 (by decide) rfl
  · exact (h.2.2.2.1 (by decide) rfl).trans
      (h.2.2.2.2.2.2.2.2.2 (by decide) (by decide) (by decide) (by decide) (by decide)
        (by decide))

/-- **C7.** Rendering a classified error with numeric code 28 yields a
message containing the script-timeout description; rendering one whose
code is absent from the fixed lookup table (and is not −1) yields a
message containing `unknown status code (N)` with `N` the code in
decimal. -/
theorem claim7_error_rendering (e : CommandError) :
    (e.StatusCode = 28 →
      ∃ pre post, e.Error
        = pre ++ "A script did not complete before its timeout expired." ++ post)
    ∧ (e.StatusCode ≠ -1 → statusCodeStrings e.StatusCode = none →
      ∃ pre post, e.Error
        = pre ++ ("unknown status code (" ++ itoa e.StatusCode ++ ")") ++ post) := by
  constructor
  · intro h
    refine ⟨if e.ErrorType ≠ "" then e.ErrorType ++ ": " else e.ErrorType,
      ": " ++ e.Message, ?_⟩
    rw [CommandError.Error]
    rw [h, if_neg (by decide),
      show statusCodeStrings 28
        = some "A script did not complete before its timeout expired." from rfl]
    dsimp only
    rw [String.append_assoc]
  · intro hne hnone
    refine ⟨if e.ErrorType ≠ "" then e.ErrorType ++ ": " else e.ErrorType,
      ": " ++ e.Message, ?_⟩
    rw [CommandError.Error]
    rw [if_neg hne, hnone]
    dsimp only
    rw [show ("): " : String) = ")" ++ ": " from rfl]
    simp only [String.append_assoc]

/-- Witness for C7 at code 28 and at the unlisted code 99. -/
theorem claim7_witness :
    (∃ pre post, CommandError.Error
        { StatusCode := 28, ErrorType := "", Message := "", Screen := "", Class := "",
          StackTrace := [] }
      = pre ++ "A script did not complete before its timeout expired." ++ post)
    ∧ (∃ pre post, CommandError.Error
        { StatusCode := 99, ErrorType := "", Message := "", Screen := "", Class := "",
          StackTrace := [] }
      = pre ++ ("unknown status code (" ++ itoa (99 : Int) ++ ")") ++ post) := by
  constructor
  · exact (claim7_error_rendering _).1 rfl
  · exact (claim7_error_rendering _).2 (by decide) rfl

/-! ### Claims about the transport's response handling -/

/-- **C1.** For every response the transport's `do` operation receives
whose body decodes to an envelope `jr`: if the HTTP status is ≥ 400 or
the inner status is non-zero, the classified error is returned and no
value; otherwise the envelope's session id string (trimmed of braces and
quotes) and the raw, still-undecoded bytes of its `value` field are
returned with no error. -/
theorem claim1_response_routing (r : HttpResponse) (jr : jsonResponse)
    (hbody : r.body = some jr) :
    ((r.statusCode ≥ 400 ∨ jr.Status ≠ 0) →
      handleResponse r = DoOutcome.cmdErr (parseError r.statusCode jr))
    ∧ (r.statusCode < 400 → jr.Status = 0 →
      handleResponse r = DoOutcome.ok (trimSessionId jr.RawSessionId) jr.RawValue) := by
  constructor
  · intro h
    rw [handleResponse, hbody]
    rw [if_neg (by simp)]
    simp only [Option.getD_some]
    rw [if_pos h]
  · intro h1 h2
    rw [handleResponse, hbody]
    rw [if_neg (by simp)]
    simp only [Option.getD_some]
    rw [if_neg (by push_neg; exact ⟨by omega, h2⟩)]

/-- Witness for C1 at a concrete 200/status-0 response. -/
theorem claim1_witness :
    handleResponse
        { statusCode := 200, location := none,
          body := some
            { RawSessionId := "\"abc\"", Status := 0, RawValue := "[1]", valueDecoded := ErrorDetail.empty, valueDecodeFailed := true } }
      = DoOutcome.ok "abc" "[1]" := by
  have h := claim1_response_routing
    { statusCode := 200, location := none,
      body := some
        { RawSessionId := "\"abc\"", Status := 0, RawValue := "[1]", valueDecoded := ErrorDetail.empty, valueDecodeFailed := true } }
    { RawSessionId := "\"abc\"", Status := 0, RawValue := "[1]", valueDecoded := ErrorDetail.empty, valueDecodeFailed := true } rfl
  exact (h.2 (by decide) rfl).trans (by decide)

/-- **C8 counterexample.** A non-JSON body arriving with HTTP status 204
(below 400 and not 200) is *not* routed to the error classifier with an
empty envelope as the claim states: `doInternal` falls through to the
success path and returns an empty session id and empty value with no
error. -/
theorem claim8_counterexample :
    handleResponse { statusCode := 204, location := none, body := none } = DoOutcome.ok "" ""
    ∧ handleResponse { statusCode := 204, location := none, body := none }
        ≠ DoOutcome.cmdErr (parseError 204 zeroJsonResponse) := by
  decide

/-- **C8 (amended).** The transport returns the ProtocolError
`response must be a JSON object` iff the HTTP status is exactly 200 and
the body fails to decode as a JSON envelope.  A non-JSON body with
status ≥ 400 is routed to the error classifier with the empty (zero)
envelope; with any other status below 400 (and ≠ 200) the transport
instead returns success with an empty session id and empty value. -/
theorem claim8_protocol_error_iff (r : HttpResponse) :
    (handleResponse r = DoOutcome.err "error: response must be a JSON object"
      ↔ (r.statusCode = 200 ∧ r.body = none))
    ∧ (r.body = none → r.statusCode ≥ 400 →
        handleResponse r = DoOutcome.cmdErr (parseError r.statusCode zeroJsonResponse))
    ∧ (r.body = none → r.statusCode < 400 → r.statusCode ≠ 200 →
        handleResponse r = DoOutcome.ok "" "") := by
  rcases hb : r.body with _ | jr
  · by_cases h200 : r.statusCode = 200
    · refine ⟨?_, ?_, ?_⟩
      · rw [handleResponse, hb, if_pos (by simp [h200])]
        simp [h200]
      · intro _ h4; omega
      · intro _ _ hne; exact absurd h200 hne
    · refine ⟨?_, ?_, ?_⟩
      · rw [handleResponse, hb, if_neg (by simp [h200])]
        simp only [Option.getD_none]
        constructor
        · intro h
          by_cases h4 : r.statusCode ≥ 400 ∨ zeroJsonResponse.Status ≠ 0
          · rw [if_pos h4] at h; exact absurd h (by simp)
          · rw [if_neg h4] at h; exact absurd h (by simp)
        · rintro ⟨h, _⟩; exact absurd h h200
      · intro _ h4
        rw [handleResponse, hb, if_neg (by simp [h200])]
        simp only [Option.getD_none]
        rw [if_pos (Or.inl h4)]
      · intro _ h4 _
        rw [handleResponse, hb, if_neg (by simp [h200])]
        simp only [Option.getD_none]
        rw [if_neg (by push_neg; exact ⟨by omega, rfl⟩)]
        rfl
  · refine ⟨?_, ?_, ?_⟩
    · rw [handleResponse, hb, if_neg (by simp)]
      simp only [Option.getD_some]
      constructor
      · intro h
        by_cases h4 : r.statusCode ≥ 400 ∨ jr.Status ≠ 0
        · rw [if_pos h4] at h; exact absurd h (by simp)
        · rw [if_neg h4] at h; exact absurd h (by simp)
      · rintro ⟨_, h⟩; exact absurd h (by simp)
    · intro h; exact absurd h (by simp)
    · intro h; exact absurd h (by simp)

/-- Witness for C8: a non-JSON body on HTTP 500 is classified, and a
non-JSON body on HTTP 200 yields the ProtocolError. -/
theorem claim8_witness :
    handleResponse { statusCode := 500, location := none, body := none }
      = DoOutcome.cmdErr (parseError 500 zeroJsonResponse)
    ∧ (handleResponse { statusCode := 200, location := none, body := none }
      = DoOutcome.err "error: response must be a JSON object") := by
  constructor
  · exact (claim8_protocol_error_iff _).2.1 rfl (by decide)
  · exact ((claim8_protocol_error_iff
      { statusCode := 200, location := none, body := none }).1).mpr ⟨rfl, rfl⟩

/-! ### Claims about request construction and the redirect -/

/-- **C10.** For every `do` call with method GET or DELETE the params
argument is ignored: the constructed request has an empty body and no
`Content-Type` header; only POST requests serialize the params to a JSON
body (a nil params becoming the empty object) and set the JSON
`Content-Type` header. -/
theorem claim10_request_construction (method url : String) (params : Option JVal) :
    ((method = "GET" ∨ method = "DELETE") →
      (buildRequest params method url).body = ""
      ∧ (buildRequest params method url).hasHeader "Content-Type" = false
      ∧ buildRequest params method url = buildRequest none method url)
    ∧ (buildRequest params "POST" url).body = jMarshal (params.getD (JVal.jobj JFields.nil))
    ∧ (buildRequest none "POST" url).body = "\x7b\x7d"
    ∧ (buildRequest params "POST" url).hasHeader "Content-Type" = true := by
  refine ⟨?_, rfl, rfl, rfl⟩
  rintro (rfl | rfl) <;> exact ⟨rfl, rfl, rfl⟩

/-- Witness for C10 on a GET request carrying (ignored) params. -/
theorem claim10_witness :
    (buildRequest (some (JVal.jnum 1)) "GET" "/status").body = ""
    ∧ (buildRequest (some (JVal.jnum 1)) "GET" "/status").hasHeader "Content-Type" = false
    ∧ buildRequest (some (JVal.jnum 1)) "GET" "/status" = buildRequest none "GET" "/status" :=
  (claim10_request_construction "GET" "/status" (some (JVal.jnum 1))).1 (Or.inl rfl)

/-- **C2.** For every POST whose response has HTTP status 302 or 303 and
a `Location` header, `doInternal` issues exactly one follow-up GET to
that URL and returns the envelope decoded from the second response, not
from the redirect response's body; no further requests are issued. -/
theorem claim2_post_redirect_single_get (server : HttpRequest → HttpResponse)
    (params : Option JVal) (u loc : String) (fuel : Nat)
    (hred : isRedirect (server (buildRequest params "POST" u)) = true)
    (hloc : (server (buildRequest params "POST" u)).location = some loc) :
    doInternal server (fuel + 2) params "POST" u
      = ([buildRequest params "POST" u, buildRequest none "GET" loc],
          handleResponse (server (buildRequest none "GET" loc))) := by
  rw [doInternal]
  dsimp only
  rw [if_pos ⟨rfl, hred⟩, hloc]
  dsimp only
  rw [doInternal]
  dsimp only
  rw [if_neg (by simp)]

/-- Witness for C2 against the concrete redirecting server. -/
theorem claim2_witness :
    doInternal c2Server 2 none "POST" "http://127.0.0.1:7055/hub/session"
      = ([buildRequest none "POST" "http://127.0.0.1:7055/hub/session",
          buildRequest none "GET" "http://127.0.0.1:7055/hub/session/abc"],
          handleResponse
            (c2Server (buildRequest none "GET" "http://127.0.0.1:7055/hub/session/abc"))) :=
  claim2_post_redirect_single_get c2Server none _ _ 0 (by decide) (by decide)

/-! ### Claims about port allocation -/

theorem findFreePort_spec (free : Nat → Bool) :
    ∀ fuel start p, findFreePort free fuel start = some p →
      start ≤ p ∧ free p = true ∧ ∀ q, start ≤ q → q < p → free q = false := by
  intro fuel
  induction fuel with
  | zero => intro start p h; simp [findFreePort] at h
  | succ f ih =>
    intro start p h
    rw [findFreePort] at h
    by_cases hf : free start = true
    · rw [if_pos hf] at h
      injection h with h
      subst h
      exact ⟨Nat.le_refl _, hf, fun q h1 h2 => by omega⟩
    · rw [if_neg hf] at h
      obtain ⟨h1, h2, h3⟩ := ih (start + 1) p h
      refine ⟨by omega, h2, fun q hq1 hq2 => ?_⟩
      by_cases hqs : q = start
      · rw [hqs]; exact Bool.eq_false_iff.mpr hf
      · exact h3 q (by omega) hq2

/-- **C9.** For every successful port allocation the port bound in the
driver is never below the requested base: a non-zero requested port is
used as is, and with base 0 the allocator scans upward from 7055 and
binds the first candidate port at or above the base on which a test
listener could be opened and closed. -/
theorem claim9_port_allocation (env : FFEnv) (d : FirefoxDriver) :
    (d.Port ≠ 0 → ffAllocPort env d = (d, none))
    ∧ (d.Port = 0 → env.lockOk = true → env.closeOk = true →
        ∀ p, findFreePort env.free (65535 - 7055) 7055 = some p →
          ffAllocPort env d = ({ d with Port := p }, none)
          ∧ 7055 ≤ p ∧ env.free p = true
          ∧ ∀ q, 7055 ≤ q → q < p → env.free q = false) := by
  constructor
  · intro h
    rw [ffAllocPort, if_neg h]
  · intro h0 hlock hclose p hscan
    obtain ⟨h1, h2, h3⟩ := findFreePort_spec env.free (65535 - 7055) 7055 p hscan
    refine ⟨?_, h1, h2, h3⟩
    rw [ffAllocPort, if_pos h0]
    rw [if_neg (by simp [hlock])]
    split
    case _ q heq =>
      have hq : q = p := Option.some.inj (heq.symm.trans hscan)
      subst hq
      rw [if_neg (by simp [hclose])]
    case _ heq =>
      exact absurd (heq.symm.trans hscan) (by simp)

/-- Witness for C9: with ports 7055 and 7056 occupied, auto-selection
binds 7057. -/
theorem claim9_witness :
    ffAllocPort ffScanEnv (NewFirefoxDriver "firefox" "webdriver.xpi")
      = ({ NewFirefoxDriver "firefox" "webdriver.xpi" with Port := 7057 }, none) :=
  ((claim9_port_allocation ffScanEnv (NewFirefoxDriver "firefox" "webdriver.xpi")).2
    rfl rfl rfl 7057 (by decide)).1

/-! ### Claims about the supervisors' start/stop state machine -/

/-- A successful `ChromeDriver.StartInline` leaves the running marker
set with a live `Process`. -/
theorem StartInline_ok_cmd (env : ChromeEnv) (d0 : ChromeDriver)
    (h : (ChromeDriver.StartInline env d0).2 = none) :
    (ChromeDriver.StartInline env d0).1.cmd = some true := by
  rw [ChromeDriver.StartInline] at h ⊢
  split_ifs at h ⊢ <;> simp_all
  all_goals try (split_ifs at h ⊢ <;> simp_all)

/-- A successful `ChromeDriver.StartRunBrowser` leaves the running
marker set with a live `Process`. -/
theorem StartRunBrowser_ok_cmd (env : ChromeEnv) (d0 : ChromeDriver)
    (h : (ChromeDriver.StartRunBrowser env d0).2 = none) :
    (ChromeDriver.StartRunBrowser env d0).1.cmd = some true := by
  simp only [ChromeDriver.StartRunBrowser, runBrowser] at h ⊢
  split_ifs at h ⊢ <;> simp_all

/-- **C3 counterexample.** Two consecutive `Start()` calls on the
firefox driver with no intervening `Stop()`: the second call returns no
error at all (`FirefoxDriver.Start` performs no already-running check),
so it does not return the claimed StateError. -/
theorem claim3_counterexample :
    (FirefoxDriver.Start ffOkEnv (NewFirefoxDriver "firefox" "webdriver.xpi")).2 = none
    ∧ (FirefoxDriver.Start ffOkEnv
        (FirefoxDriver.Start ffOkEnv (NewFirefoxDriver "firefox" "webdriver.xpi")).1).2
      = none := by
  decide

/-- **C3 (amended).** For both driver families, `Stop()` when the driver
is not running (`d.cmd` nil) returns a StateError.  For the chromedriver
supervisor (both source variants), a second `Start()` after a successful
`Start()` with no intervening `Stop()` returns a StateError; the firefox
driver performs no such check, and its second `Start()` is not
rejected. -/
theorem claim3_state_errors (df : FirefoxDriver) (dc : ChromeDriver) (env env2 : ChromeEnv) :
    (df.cmd = none →
      FirefoxDriver.Stop df = (df, StopOutcome.err "stop failed: firefoxdriver not running"))
    ∧ (dc.cmd = none →
      ChromeDriver.Stop dc = (dc, StopOutcome.err "stop failed: chromedriver not running"))
    ∧ (∀ d1, ChromeDriver.StartInline env dc = (d1, none) →
        (ChromeDriver.StartInline env2 d1).2
          = some "chromedriver start failed: chromedriver already running")
    ∧ (∀ d1, ChromeDriver.StartRunBrowser env dc = (d1, none) →
        (ChromeDriver.StartRunBrowser env2 d1).2
          = some "chromedriver start failed: chromedriver already running") := by
  refine ⟨?_, ?_, ?_, ?_⟩
  · intro h; rw [FirefoxDriver.Stop, if_pos h]
  · intro h; rw [ChromeDriver.Stop, if_pos h]
  · intro d1 h
    have h2 : (ChromeDriver.StartInline env dc).1.cmd = some true :=
      StartInline_ok_cmd env dc (by rw [h])
    have hd1 : d1 = (ChromeDriver.StartInline env dc).1 := by rw [h]
    have h3 : ((ChromeDriver.StartInline env dc).1.cmd).isSome = true := by rw [h2]; rfl
    rw [hd1, ChromeDriver.StartInline, if_pos h3]
  · intro d1 h
    have h2 : (ChromeDriver.StartRunBrowser env dc).1.cmd = some true :=
      StartRunBrowser_ok_cmd env dc (by rw [h])
    have hd1 : d1 = (ChromeDriver.StartRunBrowser env dc).1 := by rw [h]
    have h3 : ((ChromeDriver.StartRunBrowser env dc).1.cmd).isSome = true := by rw [h2]; rfl
    rw [hd1, ChromeDriver.StartRunBrowser, if_pos h3]

/-- Witness for C3: `Stop()` before any `Start()` on a fresh firefox
driver, and the second of two consecutive chromedriver `Start()`s. -/
theorem claim3_witness :
    FirefoxDriver.Stop (NewFirefoxDriver "firefox" "webdriver.xpi")
      = (NewFirefoxDriver "firefox" "webdriver.xpi",
          StopOutcome.err "stop failed: firefoxdriver not running")
    ∧ (ChromeDriver.StartInline chromeOkEnv
        (ChromeDriver.StartInline chromeOkEnv (NewChromeDriver "chromedriver")).1).2
      = some "chromedriver start failed: chromedriver already running" := by
  constructor
  · exact (claim3_state_errors (NewFirefoxDriver "firefox" "webdriver.xpi")
      (NewChromeDriver "chromedriver") chromeOkEnv chromeOkEnv).1 rfl
  · exact (claim3_state_errors (NewFirefoxDriver "firefox" "webdriver.xpi")
      (NewChromeDriver "chromedriver") chromeOkEnv chromeOkEnv).2.2.1 _ (by decide)

theorem userPrefLines_ok (prefs : List (String × PrefValue))
    (h : ∀ p ∈ prefs, isSupportedPref p.2 = true) :
    userPrefLines prefs = Except.ok (prefs.map prefLine) := by
  induction prefs with
  | nil => rfl
  | cons p rest ih =>
    obtain ⟨k, v⟩ := p
    have hv : isSupportedPref v = true := h (k, v) (List.mem_cons_self _ _)
    have hrest : ∀ q ∈ rest, isSupportedPref q.2 = true :=
      fun q hq => h q (List.mem_cons_of_mem _ hq)
    obtain ⟨tok, htok⟩ : ∃ tok, renderPrefValue v = some tok := by
      match v with
      | PrefValue.b true => exact ⟨_, rfl⟩
      | PrefValue.b false => exact ⟨_, rfl⟩
      | PrefValue.i x => exact ⟨_, rfl⟩
      | PrefValue.s x => exact ⟨_, rfl⟩
      | PrefValue.other t => exact absurd hv (by simp [isSupportedPref])
    rw [userPrefLines, htok, ih hrest]
    simp [prefLine, htok]

theorem userPrefLines_error (pre : List (String × PrefValue)) (k : String) (v : PrefValue)
    (rest : List (String × PrefValue)) (hpre : ∀ p ∈ pre, isSupportedPref p.2 = true)
    (hv : renderPrefValue v = none) :
    userPrefLines (pre ++ (k, v) :: rest)
      = Except.error ("create profile failed: unexpected preference type: " ++ k) := by
  induction pre with
  | nil => rw [List.nil_append, userPrefLines, hv]
  | cons q pre ih =>
    obtain ⟨k2, v2⟩ := q
    have hv2 : isSupportedPref v2 = true := hpre (k2, v2) (List.mem_cons_self _ _)
    have hpre2 : ∀ p ∈ pre, isSupportedPref p.2 = true :=
      fun p hp => hpre p (List.mem_cons_of_mem _ hp)
    obtain ⟨tok, htok⟩ : ∃ tok, renderPrefValue v2 = some tok := by
      match v2 with
      | PrefValue.b true => exact ⟨_, rfl⟩
      | PrefValue.b false => exact ⟨_, rfl⟩
      | PrefValue.i x => exact ⟨_, rfl⟩
      | PrefValue.s x => exact ⟨_, rfl⟩
      | PrefValue.other t => exact absurd hv2 (by simp [isSupportedPref])
    rw [List.cons_append, userPrefLines, htok, ih hpre2]

theorem prefLine_roundTrip (k : String) (v : PrefValue) (hs : isSupportedPref v = true)
    (hc : entryQuoteClean (k, v)) :
    parseUserPrefStatement (prefLine (k, v)) = some (k, v) := by
  match v with
  | PrefValue.b true => exact parseUserPrefStatement_roundTrip k "true" _ hc (by decide)
  | PrefValue.b false => exact parseUserPrefStatement_roundTrip k "false" _ hc (by decide)
  | PrefValue.i x =>
    exact parseUserPrefStatement_roundTrip k (itoa x) _ hc (parsePrefValueToken_itoa x)
  | PrefValue.s x =>
    exact parseUserPrefStatement_roundTrip k ("\"" ++ x ++ "\"") _ hc.1
      (parsePrefValueToken_quoted x hc.2)
  | PrefValue.other t => exact absurd hs (by simp [isSupportedPref])

/-- **C5 counterexample.** A string preference value containing a double
quote is written unescaped, and the resulting statement no longer
reparses: the round-trip the claim states fails on the entry
`("k", "a\"b")`. -/
theorem claim5_counterexample :
    userPrefLines [("k", PrefValue.s "a\"b")]
      = Except.ok ["user_pref(\"k\", \"a\"b\");"]
    ∧ parseUserPrefStatement "user_pref(\"k\", \"a\"b\");" = none :=
  ⟨rfl, rfl⟩

/-- **C5 (amended).** For every preference map whose values are all
booleans, integers or strings, profile creation writes exactly one
`user_pref("key", value);` statement per map entry (booleans as
`true`/`false`, integers in decimal, strings double-quoted without
escaping), and reparsing a generated statement round-trips the original
entry provided the key and any string value contain no double-quote
character; a string containing a double quote is emitted verbatim and
its statement does not reparse (see the counterexample).  If any entry's
value has any other type, profile creation fails with an error naming
the offending key. -/
theorem claim5_pref_lines (prefs : List (String × PrefValue)) :
    ((∀ p ∈ prefs, isSupportedPref p.2 = true) →
      userPrefLines prefs = Except.ok (prefs.map prefLine)
      ∧ (prefs.map prefLine).length = prefs.length
      ∧ ∀ p ∈ prefs, entryQuoteClean p → parseUserPrefStatement (prefLine p) = some p)
    ∧ (∀ pre k v rest, prefs = pre ++ (k, v) :: rest →
        (∀ p ∈ pre, isSupportedPref p.2 = true) → renderPrefValue v = none →
        userPrefLines prefs
          = Except.error ("create profile failed: unexpected preference type: " ++ k)) := by
  constructor
  · intro h
    refine ⟨userPrefLines_ok prefs h, List.length_map _ _, ?_⟩
    intro p hp hq
    obtain ⟨k, v⟩ := p
    exact prefLine_roundTrip k v (h (k, v) hp) hq
  · intro pre k v rest heq hpre hv
    rw [heq]
    exact userPrefLines_error pre k v rest hpre hv

/-- Witness for C5 on a concrete three-entry map covering all three
supported types, plus the error case on an unsupported type. -/
theorem claim5_witness :
    userPrefLines [("x", PrefValue.i (-5)), ("y", PrefValue.b true), ("z", PrefValue.s "ab")]
      = Except.ok
          ["user_pref(\"x\", -5);", "user_pref(\"y\", true);", "user_pref(\"z\", \"ab\");"]
    ∧ parseUserPrefStatement "user_pref(\"z\", \"ab\");" = some ("z", PrefValue.s "ab")
    ∧ userPrefLines [("w", PrefValue.other "float64")]
      = Except.error "create profile failed: unexpected preference type: w" := by
  have h := (claim5_pref_lines
    [("x", PrefValue.i (-5)), ("y", PrefValue.b true), ("z", PrefValue.s "ab")]).1
    (by decide)
  have herr := (claim5_pref_lines [("w", PrefValue.other "float64")]).2
    [] "w" (PrefValue.other "float64") [] rfl (by decide) rfl
  refine ⟨h.1.trans rfl, ?_, herr.trans rfl⟩
  have hz := h.2.2 ("z", PrefValue.s "ab") (by decide) ⟨by decide, by decide⟩
  exact (by decide : parseUserPrefStatement "user_pref(\"z\", \"ab\");"
    = parseUserPrefStatement (prefLine ("z", PrefValue.s "ab"))).trans hz

end Webdriver
